import Mathlib

/-!
Shallow embedding of the TRP1 Hook Engine (`src/hooks/index.ts`): the
pre-hook decision procedure (intent handshake, scope enforcement,
optimistic locking), the post-hook audit writer (trace entries and the
`intent_map.md` spatial index), and their helpers.

External effects are made explicit: the filesystem snapshot, the parsed
registry, the git query outcome and the ambient nondeterminism
(timestamps, uuids) are inputs; the SHA-256 primitive is a function
parameter, since it is an external crypto primitive.
-/

set_option maxRecDepth 16000

-- ===== String helpers (structural, so that concrete runs reduce in the kernel) =====

/-- Model of JavaScript `String.prototype.split` with a one-character
separator, as used by `contentModified.split("\n")` and for path segments. -/
def splitOnCharAux (sep : Char) : List Char → List Char → List String
  | [], acc => [String.mk acc.reverse]
  | c :: rest, acc =>
    if c == sep then String.mk acc.reverse :: splitOnCharAux sep rest []
    else splitOnCharAux sep rest (c :: acc)

/-- Split a string at every occurrence of the character `sep`. -/
def splitOnChar (s : String) (sep : Char) : List String :=
  splitOnCharAux sep s.data []

/-- Boolean test that the list `p` is a prefix of the list `l`. -/
def beginsWithList : List Char → List Char → Bool
  | [], _ => true
  | _ :: _, [] => false
  | a :: as, b :: bs => (a == b) && beginsWithList as bs

/-- Model of JavaScript `String.prototype.endsWith` (line 102 of the source). -/
def endsWithStr (s r : String) : Bool :=
  beginsWithList r.data.reverse s.data.reverse

/-- Model of JavaScript `String.prototype.slice(0, n)`. -/
def takeStr (s : String) (n : Nat) : String :=
  String.mk (s.data.take n)

/-- Whitespace test for `trimStr` (ASCII whitespace, as produced by git output). -/
def isWs (c : Char) : Bool :=
  c == ' ' || c == '\n' || c == '\t' || c == '\r'

/-- Model of JavaScript `String.prototype.trim`. -/
def trimStr (s : String) : String :=
  String.mk (((s.data.dropWhile isWs).reverse.dropWhile isWs).reverse)

/-- Model of `targetPath.replace(/\\/g, "/")` (line 229 of the source). -/
def normalizeSlashes (s : String) : String :=
  String.mk (s.data.map (fun c => if c == '\\' then '/' else c))

/-- JavaScript truthiness of an optional string: `undefined`/`null` and the
empty string are falsy, every other string is truthy. -/
def truthyStr : Option String → Bool
  | none => false
  | some s => s != ""

/-- JavaScript `s || d`: the string `s` unless it is empty, else `d`. -/
def orElseStr (s d : String) : String :=
  if s = "" then d else s

-- ===== Data model =====

/-- One record of `.orchestration/active_intents.yaml`. An `Option` list
field is `none` when the YAML key is absent, null or not an array (all of
which behave the same in the source conditionals). -/
structure Intent where
  id : String
  name : String
  status : String
  owned_scope : Option (List String)
  constraints : Option (List String)
  acceptance_criteria : Option (List String)
deriving DecidableEq, Repr

/-- Outcome of `fs.readFile` + `YAML.parse` + the shape test
`data && Array.isArray(data.active_intents)` on the registry file.
`readError` covers a thrown read or parse; `badShape` covers a parse whose
result does not have an `active_intents` array. -/
inductive RegistryRead where
  | readError : RegistryRead
  | badShape : RegistryRead
  | ok : List Intent → RegistryRead
deriving DecidableEq, Repr

/-- The filesystem snapshot and registry state an invocation observes.
`registryExists` is the outcome of `fs.access(active_intents.yaml)`;
`registry` is the outcome of reading and parsing it; `disk` gives the
content of any other readable file by absolute path (`none` = read fails);
`intentMap` is the current content of `.orchestration/intent_map.md`. -/
structure Env where
  registryExists : Bool
  registry : RegistryRead
  disk : String → Option String
  intentMap : Option String

/-- The tool parameters consulted by the hook engine. Fields
`modelIdentifier` and `sessionId` model the `_modelIdentifier` and
`_sessionId` entries of the params bag. -/
structure HookParams where
  intent_id : Option String := none
  path : Option String := none
  file_path : Option String := none
  known_content_hash : Option String := none
  content : Option String := none
  new_string : Option String := none
  diff : Option String := none
  modelIdentifier : Option String := none
  sessionId : Option String := none
deriving DecidableEq, Repr

/-- Input of `runPreHook` (`PreHookContext` in `src/hooks/types.ts`). -/
structure PreHookContext where
  toolName : String
  params : HookParams
  activeIntentId : Option String := none
deriving DecidableEq, Repr

/-- Output of `runPreHook`. -/
structure PreHookResult where
  allow : Bool
  error : Option String := none
  injectedContext : Option String := none
deriving DecidableEq, Repr

-- ===== Intent store reader =====

/-- `getActiveIntent` (lines 67-78): resolve an intent id against the
registry; any read/parse/shape failure yields `none`. -/
def getActiveIntent (env : Env) (intentId : String) : Option Intent :=
  match env.registry with
  | .ok l => l.find? (fun i => i.id == intentId)
  | _ => none

-- ===== Error message construction (verbatim from the source) =====

/-- Line 128 of the source. -/
def missingIntentIdMsg : String :=
  "Missing intent_id in select_active_intent parameters."

/-- Lines 134-144: the best-effort list of available intent ids shown by
the `select_active_intent` not-found error. -/
def availableIdsSelect (env : Env) : String :=
  match env.registry with
  | .ok l => orElseStr (String.intercalate ", " (l.map Intent.id)) "none"
  | _ => "unknown (could not read file)"

/-- Line 147 of the source. -/
def intentNotFoundMsg (intentId availableIds : String) : String :=
  "Intent \x27" ++ intentId ++ "\x27 not found in .orchestration/active_intents.yaml. Available intent IDs: [" ++
    availableIds ++ "]. Call select_active_intent again with one of those IDs."

/-- Lines 192-205: the best-effort list of available intent ids shown by
the missing-active-intent error of the mutating-tool gate. -/
def availableIdsMutating (env : Env) : String :=
  match env.registry with
  | .ok l => orElseStr (String.intercalate ", " (l.map Intent.id)) "none"
  | _ => "could not read — try read_file(\x27.orchestration/active_intents.yaml\x27)"

/-- Lines 208-211 of the source. -/
def noActiveIntentMsg (availableIds : String) : String :=
  "No active intent is set. You MUST call select_active_intent before modifying any file. " ++
    "Available intent IDs: [" ++ availableIds ++ "]. " ++
    "Do NOT switch modes. Call select_active_intent(intent_id) now, then retry."

/-- Lines 236-238 of the source. -/
def scopeViolationMsg (activeIntentId targetPath scopeJoined : String) : String :=
  "Scope Violation: Intent \x27" ++ activeIntentId ++ "\x27 is not authorized to edit \x27" ++
    targetPath ++ "\x27. Allowed scope: [" ++ scopeJoined ++ "]. Request scope expansion if needed."

/-- Lines 252-255 of the source. -/
def staleConflictMsg (targetPath knownHash diskHash : String) : String :=
  "Stale File Conflict: The file \x27" ++ targetPath ++ "\x27 has been modified since you last read it " ++
    "(your hash: " ++ takeStr knownHash 8 ++ "..., disk hash: " ++ takeStr diskHash 8 ++ "...). " ++
    "Re-read the file, incorporate the changes, then retry."

/-- Lines 151-170: the `<intent_context>` block injected on successful
intent selection. -/
def injectedContextFor (d : Intent) : String :=
  let scopeList := orElseStr (String.intercalate "\n    " (d.owned_scope.getD [])) "Any"
  let constraintList := orElseStr (String.intercalate "\n    " (d.constraints.getD [])) "None"
  let criteriaList := orElseStr (String.intercalate "\n    " (d.acceptance_criteria.getD [])) "None"
  String.intercalate "\n" [
    "<intent_context>",
    "  <id>" ++ d.id ++ "</id>",
    "  <name>" ++ d.name ++ "</name>",
    "  <status>" ++ d.status ++ "</status>",
    "  <owned_scope>",
    "    " ++ scopeList,
    "  </owned_scope>",
    "  <constraints>",
    "    " ++ constraintList,
    "  </constraints>",
    "  <acceptance_criteria>",
    "    " ++ criteriaList,
    "  </acceptance_criteria>",
    "</intent_context>"]

-- ===== Scope matcher =====

/-- Modelled from the spec: one glob segment of the external `minimatch`
library, restricted to the construct the spec names (`*` wildcards, `?`
single characters, literals). Fuel-indexed so that it is structural; the
fuel strictly exceeds the combined length, so it never runs out. -/
def segMatchF : Nat → List Char → List Char → Bool
  | 0, _, _ => false
  | fuel + 1, p, s =>
    match p, s with
    | [], [] => true
    | '*' :: ps, [] => segMatchF fuel ps []
    | '*' :: ps, c :: s2 => segMatchF fuel ps (c :: s2) || segMatchF fuel ('*' :: ps) s2
    | '?' :: ps, _ :: s2 => segMatchF fuel ps s2
    | p1 :: ps, c :: s2 => (p1 == c) && segMatchF fuel ps s2
    | _, _ => false

/-- Modelled from the spec: match one glob segment against one path segment. -/
def segMatch (p s : List Char) : Bool :=
  segMatchF (p.length + s.length + 1) p s

/-- Modelled from the spec: segment-list glob matching where `**` matches
zero or more whole path segments. Fuel-indexed so that it is structural. -/
def globSegsF : Nat → List String → List String → Bool
  | 0, _, _ => false
  | fuel + 1, ps, ss =>
    match ps, ss with
    | [], [] => true
    | "**" :: ps2, ss =>
      globSegsF fuel ps2 ss ||
        (match ss with
          | [] => false
          | _ :: ss2 => globSegsF fuel ("**" :: ps2) ss2)
    | p :: ps2, s :: ss2 => segMatch p.data s.data && globSegsF fuel ps2 ss2
    | _, _ => false

/-- Modelled from the spec: glob matching of a pattern against a path. -/
def globSegs (ps ss : List String) : Bool :=
  globSegsF (ps.length + ss.length + 1) ps ss

/-- Last path segment of a slash-separated path. -/
def baseName (p : String) : String :=
  match (splitOnChar p '/').getLast? with
  | some s => s
  | none => p

/-- Modelled from the spec: the external `minimatch(path, glob,
matchBase and dot set)` call of line 231. Per spec section 4.3: glob-style
matching; a pattern without a separator is matched against the base name
alone; dotfiles are matched explicitly (no special dot handling); `**`
spans directories. -/
def globMatch (p pattern : String) : Bool :=
  if pattern.data.any (fun c => c == '/') then
    globSegs (splitOnChar pattern '/') (splitOnChar p '/')
  else if p.data.any (fun c => c == '/') then
    segMatch pattern.data (baseName p).data
  else
    segMatch pattern.data p.data

-- ===== Pre-hook decision engine =====

/-- The fixed mutating-tool gate list (lines 176-187). -/
def mutatingTools : List String :=
  ["write_to_file", "edit_file", "search_replace", "apply_diff", "execute_command",
   "new_task", "edit", "search_and_replace", "apply_patch"]

/-- Target-path extraction (lines 215-222): `write_to_file` and
`apply_diff` use `params.path`; the four edit-style tools use
`params.file_path`; every other tool (including `apply_patch`) has no
single extractable path. -/
def extractTargetPath (toolName : String) (params : HookParams) : Option String :=
  if toolName == "write_to_file" || toolName == "apply_diff" then params.path
  else if ["edit_file", "search_replace", "edit", "search_and_replace"].contains toolName then params.file_path
  else none

/-- Phase 2b scope enforcement (lines 224-241): runs only when the active
intent resolves and declares an `owned_scope` array; the path is in scope
when any one pattern matches the separator-normalized path. -/
def scopeCheck (activeIntentId targetPath : String) (intentData : Option Intent) : Option PreHookResult :=
  match intentData with
  | some d =>
    match d.owned_scope with
    | some scope =>
      let normalizedPath := normalizeSlashes targetPath
      if scope.any (fun g => globMatch normalizedPath g) then none
      else
        some { allow := false,
               error := some (scopeViolationMsg activeIntentId targetPath (String.intercalate ", " scope)) }
    | none => none
  | none => none

/-- Model of `path.isAbsolute` (posix). -/
def isAbsolutePath (p : String) : Bool :=
  match p.data with
  | '/' :: _ => true
  | _ => false

/-- Model of `path.join(cwd, targetPath)`. -/
def joinPath (cwd p : String) : String :=
  cwd ++ "/" ++ p

/-- Line 247 of the source: resolve the target path to an absolute path. -/
def resolveAbs (cwd p : String) : String :=
  if isAbsolutePath p then p else joinPath cwd p

/-- `hashFileOnDisk` (lines 37-44): hash of the on-disk content, `none`
when the file cannot be read. -/
def hashFileOnDisk (hash : String → String) (env : Env) (filePath : String) : Option String :=
  (env.disk filePath).map hash

/-- Phase 4 optimistic locking (lines 243-259): only for `write_to_file`,
only when a truthy `known_content_hash` is supplied, and only when a disk
hash exists (and is truthy) and differs from the supplied hash. -/
def lockCheck (hash : String → String) (env : Env) (cwd toolName targetPath : String)
    (params : HookParams) : Option PreHookResult :=
  if toolName == "write_to_file" then
    match params.known_content_hash with
    | some knownHash =>
      if knownHash != "" then
        match hashFileOnDisk hash env (resolveAbs cwd targetPath) with
        | some diskHash =>
          if diskHash != "" && diskHash != knownHash then
            some { allow := false, error := some (staleConflictMsg targetPath knownHash diskHash) }
          else none
        | none => none
      else none
    | none => none
  else none

/-- `HookEngine.runPreHook` (lines 114-264). -/
def runPreHook (hash : String → String) (env : Env) (context : PreHookContext) (cwd : String) :
    PreHookResult :=
  if !env.registryExists then { allow := true }
  else if context.toolName == "select_active_intent" then
    match context.params.intent_id with
    | none => { allow := false, error := some missingIntentIdMsg }
    | some intentId =>
      if intentId == "" then { allow := false, error := some missingIntentIdMsg }
      else
        match getActiveIntent env intentId with
        | none => { allow := false, error := some (intentNotFoundMsg intentId (availableIdsSelect env)) }
        | some intentData => { allow := true, injectedContext := some (injectedContextFor intentData) }
  else if mutatingTools.contains context.toolName then
    if !(truthyStr context.activeIntentId) then
      { allow := false, error := some (noActiveIntentMsg (availableIdsMutating env)) }
    else
      let activeId := context.activeIntentId.getD ""
      match extractTargetPath context.toolName context.params with
      | some targetPath =>
        if targetPath != "" then
          match scopeCheck activeId targetPath (getActiveIntent env activeId) with
          | some denial => denial
          | none =>
            match lockCheck hash env cwd context.toolName targetPath context.params with
            | some denial => denial
            | none => { allow := true }
        else { allow := true }
      | none => { allow := true }
  else { allow := true }

-- ===== Revision resolver =====

/-- `getGitSha` (lines 23-29): the outcome of
`execSync("git rev-parse HEAD")` is an input; a thrown failure (not a
repository, command unavailable, timeout) is the `.error` case and maps to
the sentinel `"no-git"`. -/
def getGitSha (git : Except Unit String) : String :=
  match git with
  | .ok out => trimStr out
  | .error _ => "no-git"

-- ===== Spatial index (intent_map.md) =====

/-- The header written when `intent_map.md` does not exist yet (line 95). -/
def intentMapHeader : String :=
  "# Intent Map\n\nMaps business intents to physical files modified by the AI agent.\n\n" ++
    "| Intent ID | Intent Name | File Path | Last Modified |\n" ++
    "|-----------|-------------|-----------|---------------|\n"

/-- One table row (line 99); the file path is wrapped in backticks. -/
def intentMapRow (intentId intentName filePath timestamp : String) : String :=
  "| " ++ intentId ++ " | " ++ intentName ++ " | \x60" ++ filePath ++ "\x60 | " ++ timestamp ++ " |\n"

/-- `updateIntentMap` (lines 86-105), as a function from the current file
content (`none` = file absent) to the content after the call. The ambient
`new Date().toISOString()` is the explicit `timestamp` input. The row is
appended only when the file does not already end with this exact row. -/
def updateIntentMap (existingFile : Option String) (intentId intentName filePath timestamp : String) :
    String :=
  let existing :=
    match existingFile with
    | some c => c
    | none => intentMapHeader
  let row := intentMapRow intentId intentName filePath timestamp
  if !(endsWithStr existing row) then existing ++ row else existing

-- ===== Post-hook audit writer =====

/-- Input of `runPostHook` (`PostHookContext` in `src/hooks/types.ts`).
`mutationCls` models the `mutationClass` field. -/
structure PostHookContext where
  toolName : String
  params : HookParams
  activeIntentId : Option String := none
  mutationCls : Option String := none
deriving DecidableEq, Repr

/-- One content range of a trace entry. -/
structure TraceRange where
  start_line : Nat
  end_line : Nat
  content_hash : String
deriving DecidableEq, Repr

/-- The contributor descriptor of a trace entry conversation. -/
structure Contributor where
  entity_type : String
  model_identifier : String
deriving DecidableEq, Repr

/-- One entry of the `related` list; `ref_type` models the `type` field. -/
structure RelatedRef where
  ref_type : String
  value : String
deriving DecidableEq, Repr

/-- One conversation sub-record of a trace entry file record. -/
structure Conversation where
  url : String
  contributor : Contributor
  ranges : List TraceRange
  related : List RelatedRef
deriving DecidableEq, Repr

/-- One file-change record of a trace entry. -/
structure FileRecord where
  relative_path : String
  conversations : List Conversation
deriving DecidableEq, Repr

/-- One audit record of `agent_trace.jsonl` (lines 317-350).
`mutationKind` models the `mutation_class` field; `revision_id` models
`vcs.revision_id`. -/
structure TraceEntry where
  id : String
  timestamp : String
  revision_id : String
  intent_id : String
  mutationKind : String
  files : List FileRecord
deriving DecidableEq, Repr

/-- The ambient nondeterminism a post-hook invocation observes: the git
query outcome, `new Date().toISOString()` at entry construction and inside
`updateIntentMap`, and the two `crypto.randomUUID()` draws. -/
structure Ambient where
  git : Except Unit String
  timestamp : String
  mapTimestamp : String
  entryUuid : String
  sessionUuid : String

/-- Target-path and content extraction of the post-hook (lines 278-290). -/
def extractPost (toolName : String) (params : HookParams) : Option String × Option String :=
  if toolName == "write_to_file" then (params.path, params.content)
  else if ["edit_file", "search_replace"].contains toolName then (params.file_path, params.new_string)
  else if toolName == "apply_diff" then (params.path, params.diff)
  else (none, none)

/-- `HookEngine.runPostHook` (lines 268-366). Returns the trace entry it
appends to `agent_trace.jsonl` (`none` when the call no-ops) and the
content of `intent_map.md` after the call. -/
def runPostHook (hash : String → String) (env : Env) (amb : Ambient) (context : PostHookContext) :
    Option TraceEntry × Option String :=
  if !(truthyStr context.activeIntentId) then (none, env.intentMap)
  else if !env.registryExists then (none, env.intentMap)
  else
    let tp := (extractPost context.toolName context.params).1
    let cm := (extractPost context.toolName context.params).2
    if !(truthyStr tp) || !(truthyStr cm) then (none, env.intentMap)
    else
      let activeId := context.activeIntentId.getD ""
      let targetPath := tp.getD ""
      let contentModified := cm.getD ""
      let mutationKind := context.mutationCls.getD "INTENT_EVOLUTION"
      let lines := splitOnChar contentModified '\n'
      let startLine := 1
      let endLine := lines.length
      let contentHash := hash contentModified
      let modelIdentifier := context.params.modelIdentifier.getD "unknown-model"
      let sessionLogId := context.params.sessionId.getD amb.sessionUuid
      let revisionId := getGitSha amb.git
      let intentData := getActiveIntent env activeId
      let intentName := (intentData.map Intent.name).getD activeId
      let entry : TraceEntry := {
        id := amb.entryUuid,
        timestamp := amb.timestamp,
        revision_id := revisionId,
        intent_id := activeId,
        mutationKind := mutationKind,
        files := [{
          relative_path := targetPath,
          conversations := [{
            url := sessionLogId,
            contributor := { entity_type := "AI", model_identifier := modelIdentifier },
            ranges := [{ start_line := startLine, end_line := endLine,
                         content_hash := "sha256:" ++ contentHash }],
            related := [{ ref_type := "specification", value := activeId }] }] }] }
      (some entry, some (updateIntentMap env.intentMap activeId intentName targetPath amb.mapTimestamp))

/-- The nested range lists of a trace entry, one per file and conversation. -/
def entryRanges (e : TraceEntry) : List (List (List TraceRange)) :=
  e.files.map (fun f => f.conversations.map Conversation.ranges)

-- ===== Helper lemmas =====

theorem data_append_eq (s t : String) : (s ++ t).data = s.data ++ t.data := rfl

theorem beginsWith_self_append (l r : List Char) : beginsWithList l (l ++ r) = true := by
  induction l with
  | nil => rfl
  | cons a as ih => simp [beginsWithList, ih]

theorem endsWith_append (x r : String) : endsWithStr (x ++ r) r = true := by
  unfold endsWithStr
  rw [data_append_eq, List.reverse_append]
  exact beginsWith_self_append _ _

theorem contains_mutating_ne_select {t : String} (h : t ∈ mutatingTools) :
    (t == "select_active_intent") = false := by
  by_cases he : t = "select_active_intent"
  · subst he; exact absurd h (by decide)
  · exact beq_eq_false_iff_ne.mpr he

-- ===== Claims =====

/-- Claim C5: for every invocation context, if the registry file does not
exist under the workspace root, `runPreHook` returns `allow = true` with no
denial and no context injection (and, the pre-hook containing no write, no
side effect), regardless of tool name, parameters or bound intent. -/
theorem claim_C5_disabled_allows (hash : String → String) (env : Env)
    (context : PreHookContext) (cwd : String) (h : env.registryExists = false) :
    runPreHook hash env context cwd = { allow := true, error := none, injectedContext := none } := by
  simp [runPreHook, h]

theorem claim_C5_witness :
    runPreHook (fun s => s)
      { registryExists := false, registry := .readError, disk := fun _ => none, intentMap := none }
      { toolName := "execute_command", params := {}, activeIntentId := some "X" } "/w"
      = { allow := true, error := none, injectedContext := none } :=
  claim_C5_disabled_allows (fun s => s) _ _ "/w" rfl

/-- Claim C1 (evaluation at the failing input): a mutating call bound to an
intent whose registry record has `owned_scope` equal to the empty list is
DENIED with a scope violation naming the empty scope list, for any target
path — the empty array is truthy in JavaScript, so the scope block runs and
`[].some(...)` is false. This contradicts the claim (and spec), which says
an empty `owned_scope` is unrestricted default-allow; the code's own
injected context even renders an empty scope as the placeholder `Any`. -/
theorem claim_C1_empty_scope_denies :
    runPreHook (fun s => s)
      { registryExists := true,
        registry := .ok [{ id := "I1", name := "N", status := "active",
                           owned_scope := some [], constraints := none,
                           acceptance_criteria := none }],
        disk := fun _ => none, intentMap := none }
      { toolName := "write_to_file", params := { path := some "a.ts" }, activeIntentId := some "I1" }
      "/w"
      = { allow := false, error := some (scopeViolationMsg "I1" "a.ts" ""),
          injectedContext := none } := by
  decide

/-- Claim C2 (counterexample): two immediately successive `updateIntentMap`
calls with identical arguments write TWO rows when the ambient
`new Date().toISOString()` timestamps of the two calls differ (here by one
millisecond), because the duplicate test compares the full rendered row,
timestamp included. -/
theorem claim_C2_counterexample :
    updateIntentMap
        (some (updateIntentMap none "I1" "N" "p" "2025-01-01T00:00:00.000Z"))
        "I1" "N" "p" "2025-01-01T00:00:00.001Z"
      = updateIntentMap none "I1" "N" "p" "2025-01-01T00:00:00.000Z" ++
          intentMapRow "I1" "N" "p" "2025-01-01T00:00:00.001Z" ∧
    updateIntentMap
        (some (updateIntentMap none "I1" "N" "p" "2025-01-01T00:00:00.000Z"))
        "I1" "N" "p" "2025-01-01T00:00:00.001Z"
      ≠ updateIntentMap none "I1" "N" "p" "2025-01-01T00:00:00.000Z" := by
  constructor
  · decide
  · decide

/-- Claim C2 (amended): a second `updateIntentMap` call with identical
arguments AND an identical rendered timestamp is suppressed: the file
content is unchanged, so exactly one new row results from the pair. -/
theorem claim_C2_amended (e : Option String) (intentId intentName filePath ts : String) :
    updateIntentMap (some (updateIntentMap e intentId intentName filePath ts))
        intentId intentName filePath ts
      = updateIntentMap e intentId intentName filePath ts := by
  unfold updateIntentMap
  by_cases h : endsWithStr
      (match e with | some c => c | none => intentMapHeader)
      (intentMapRow intentId intentName filePath ts) = true
  · simp [h]
  · simp [h, endsWith_append]

/-- Claim C9: the revision resolver is total (never raises): it returns the
trimmed git output when the query succeeds, and on any failure returns the
fixed non-empty sentinel string. -/
theorem claim_C9_getGitSha (git : Except Unit String) :
    (∀ s, git = .ok s → getGitSha git = trimStr s) ∧
    (∀ e, git = .error e → getGitSha git = "no-git") ∧
    "no-git" ≠ "" := by
  refine ⟨?_, ?_, by decide⟩
  · rintro s rfl; rfl
  · rintro e rfl; rfl

theorem claim_C9_witness :
    getGitSha (.error ()) = "no-git" ∧ getGitSha (.ok "abc\n") = trimStr "abc\n" :=
  ⟨(claim_C9_getGitSha (.error ())).2.1 () rfl,
   (claim_C9_getGitSha (.ok "abc\n")).1 "abc\n" rfl⟩

/-- Claim C4: with the gate enabled, every mutating-tool call with no bound
active intent is denied, whatever the parameters, with the error that
instructs the caller to invoke `select_active_intent` (including the
best-effort enumerated ids). -/
theorem claim_C4_no_active_intent_denies (hash : String → String) (env : Env)
    (context : PreHookContext) (cwd : String)
    (hen : env.registryExists = true)
    (hmut : context.toolName ∈ mutatingTools)
    (hact : context.activeIntentId = none) :
    runPreHook hash env context cwd =
      { allow := false, error := some (noActiveIntentMsg (availableIdsMutating env)),
        injectedContext := none } := by
  have hbeq := contains_mutating_ne_select hmut
  simp [runPreHook, hen, hmut, hbeq, hact, truthyStr]

theorem claim_C4_witness :
    runPreHook (fun s => s)
      { registryExists := true,
        registry := .ok [{ id := "I1", name := "N", status := "active",
                           owned_scope := none, constraints := none,
                           acceptance_criteria := none }],
        disk := fun _ => none, intentMap := none }
      { toolName := "edit", params := { file_path := some "a.ts" }, activeIntentId := none } "/w"
      = { allow := false, error := some (noActiveIntentMsg "I1"), injectedContext := none } :=
  (claim_C4_no_active_intent_denies (fun s => s) _ _ "/w" rfl (by decide) rfl).trans (by decide)

/-- Claim C10: a mutating call with a bound active intent and an extracted
target path whose intent id resolves to no registry record (id absent,
registry unreadable or malformed) skips the scope check entirely and is
allowed, barring an optimistic-locking denial. -/
theorem claim_C10_unresolvable_intent_allows (hash : String → String) (env : Env)
    (context : PreHookContext) (cwd tp : String)
    (hen : env.registryExists = true)
    (hmut : context.toolName ∈ mutatingTools)
    (hact : truthyStr context.activeIntentId = true)
    (hpath : extractTargetPath context.toolName context.params = some tp)
    (htp : tp ≠ "")
    (hnointent : getActiveIntent env (context.activeIntentId.getD "") = none)
    (hlock : lockCheck hash env cwd context.toolName tp context.params = none) :
    runPreHook hash env context cwd = { allow := true, error := none, injectedContext := none } := by
  have hbeq := contains_mutating_ne_select hmut
  have htp2 : (tp != "") = true := bne_iff_ne.mpr htp
  simp [runPreHook, hen, hbeq, hmut, hact, hpath, htp2, scopeCheck, hnointent, hlock]

/-- Claim C3: for a `write_to_file` call that passes the intent and scope
checks and supplies a truthy `known_content_hash`: when the target file
exists on disk and its current hash differs from (and, like every real
SHA-256 hex digest, is non-empty) the supplied hash, the call is denied
with the stale-conflict error carrying the 8-character prefixes of both
hashes; when the supplied hash equals the disk hash, or the file cannot be
read, the call is allowed. -/
theorem claim_C3_optimistic_locking (hash : String → String) (env : Env)
    (context : PreHookContext) (cwd tp kh : String)
    (hen : env.registryExists = true)
    (htool : context.toolName = "write_to_file")
    (hact : truthyStr context.activeIntentId = true)
    (hpath : context.params.path = some tp)
    (htp : tp ≠ "")
    (hscope : scopeCheck (context.activeIntentId.getD "") tp
        (getActiveIntent env (context.activeIntentId.getD "")) = none)
    (hkh : context.params.known_content_hash = some kh)
    (hkhne : kh ≠ "") :
    (∀ c, env.disk (resolveAbs cwd tp) = some c → hash c ≠ "" → hash c ≠ kh →
        runPreHook hash env context cwd =
          { allow := false, error := some (staleConflictMsg tp kh (hash c)),
            injectedContext := none }) ∧
    (∀ c, env.disk (resolveAbs cwd tp) = some c → hash c = kh →
        runPreHook hash env context cwd =
          { allow := true, error := none, injectedContext := none }) ∧
    (env.disk (resolveAbs cwd tp) = none →
        runPreHook hash env context cwd =
          { allow := true, error := none, injectedContext := none }) := by
  have htp2 : (tp != "") = true := bne_iff_ne.mpr htp
  have hkh2 : (kh != "") = true := bne_iff_ne.mpr hkhne
  have hmem : "write_to_file" ∈ mutatingTools := by decide
  refine ⟨?_, ?_, ?_⟩
  · intro c hdisk hne1 hne2
    have hb1 : (hash c != "") = true := bne_iff_ne.mpr hne1
    have hb2 : (hash c != kh) = true := bne_iff_ne.mpr hne2
    simp [runPreHook, hen, htool, hmem, extractTargetPath, hpath, htp2, hact, hscope,
          lockCheck, hkh, hkh2, hashFileOnDisk, hdisk, hb1, hb2]
  · intro c hdisk heq
    simp [runPreHook, hen, htool, hmem, extractTargetPath, hpath, htp2, hact, hscope,
          lockCheck, hkh, hkh2, hashFileOnDisk, hdisk, heq]
  · intro hdisk
    simp [runPreHook, hen, htool, hmem, extractTargetPath, hpath, htp2, hact, hscope,
          lockCheck, hkh, hkh2, hashFileOnDisk, hdisk]

theorem claim_C3_witness :
    (runPreHook (fun s => String.mk ('h' :: s.data))
      { registryExists := true, registry := .readError,
        disk := fun p => if p = "/w/f.ts" then some "old-content" else none, intentMap := none }
      { toolName := "write_to_file",
        params := { path := some "f.ts", known_content_hash := some "AAAA" },
        activeIntentId := some "I1" } "/w"
      = { allow := false,
          error := some (staleConflictMsg "f.ts" "AAAA" "hold-content"),
          injectedContext := none }) ∧
    (runPreHook (fun s => String.mk ('h' :: s.data))
      { registryExists := true, registry := .readError,
        disk := fun p => if p = "/w/f.ts" then some "old-content" else none, intentMap := none }
      { toolName := "write_to_file",
        params := { path := some "f.ts", known_content_hash := some "hold-content" },
        activeIntentId := some "I1" } "/w"
      = { allow := true, error := none, injectedContext := none }) := by
  constructor
  · have h := (claim_C3_optimistic_locking (fun s => String.mk ('h' :: s.data))
      { registryExists := true, registry := .readError,
        disk := fun p => if p = "/w/f.ts" then some "old-content" else none, intentMap := none }
      { toolName := "write_to_file",
        params := { path := some "f.ts", known_content_hash := some "AAAA" },
        activeIntentId := some "I1" } "/w" "f.ts" "AAAA"
      rfl rfl rfl rfl (by decide) rfl rfl (by decide)).1 "old-content" (by decide)
      (by decide) (by decide)
    exact h.trans (by decide)
  · have h := (claim_C3_optimistic_locking (fun s => String.mk ('h' :: s.data))
      { registryExists := true, registry := .readError,
        disk := fun p => if p = "/w/f.ts" then some "old-content" else none, intentMap := none }
      { toolName := "write_to_file",
        params := { path := some "f.ts", known_content_hash := some "hold-content" },
        activeIntentId := some "I1" } "/w" "f.ts" "hold-content"
      rfl rfl rfl rfl (by decide) rfl rfl (by decide)).2.1 "old-content" (by decide)
      (by decide)
    exact h

/-- Claim C7: for a mutating call with an extracted target path whose
active intent declares an `owned_scope` array, the decision is the logical
OR of the glob matches: the call is allowed exactly when some pattern of
the list matches the separator-normalized path, and on a miss the denial
carries the scope violation error naming the intent, the path and the
comma-joined scope list. -/
theorem claim_C7_scope_or (hash : String → String) (env : Env) (context : PreHookContext)
    (cwd tp : String) (d : Intent) (scope : List String)
    (hen : env.registryExists = true)
    (hmut : context.toolName ∈ mutatingTools)
    (hact : truthyStr context.activeIntentId = true)
    (hpath : extractTargetPath context.toolName context.params = some tp)
    (htp : tp ≠ "")
    (hintent : getActiveIntent env (context.activeIntentId.getD "") = some d)
    (hscope : d.owned_scope = some scope)
    (hne : scope ≠ [])
    (hnolock : context.params.known_content_hash = none) :
    (runPreHook hash env context cwd).allow
        = scope.any (fun g => globMatch (normalizeSlashes tp) g) ∧
    (scope.any (fun g => globMatch (normalizeSlashes tp) g) = false →
      runPreHook hash env context cwd =
        { allow := false,
          error := some (scopeViolationMsg (context.activeIntentId.getD "") tp
            (String.intercalate ", " scope)),
          injectedContext := none }) := by
  have hbeq := contains_mutating_ne_select hmut
  have htp2 : (tp != "") = true := bne_iff_ne.mpr htp
  by_cases hin : scope.any (fun g => globMatch (normalizeSlashes tp) g) = true
  · constructor
    · simp [runPreHook, hen, hbeq, hmut, hact, hpath, htp2, scopeCheck, hintent, hscope, hin,
            lockCheck, hnolock]
    · intro hfalse; rw [hfalse] at hin; exact absurd hin (by decide)
  · have hin2 : scope.any (fun g => globMatch (normalizeSlashes tp) g) = false :=
      Bool.not_eq_true _ ▸ Bool.of_not_eq_true hin
    constructor
    · simp [runPreHook, hen, hbeq, hmut, hact, hpath, htp2, scopeCheck, hintent, hscope, hin2]
    · intro _
      simp [runPreHook, hen, hbeq, hmut, hact, hpath, htp2, scopeCheck, hintent, hscope, hin2]

theorem claim_C7_witness :
    ((runPreHook (fun s => s)
      { registryExists := true,
        registry := .ok [{ id := "I1", name := "N", status := "active",
                           owned_scope := some ["src/foo/**"], constraints := none,
                           acceptance_criteria := none }],
        disk := fun _ => none, intentMap := none }
      { toolName := "edit_file", params := { file_path := some "src/foo/bar.ts" },
        activeIntentId := some "I1" } "/w").allow = true) ∧
    (runPreHook (fun s => s)
      { registryExists := true,
        registry := .ok [{ id := "I1", name := "N", status := "active",
                           owned_scope := some ["src/foo/**"], constraints := none,
                           acceptance_criteria := none }],
        disk := fun _ => none, intentMap := none }
      { toolName := "edit_file", params := { file_path := some "src/bar.ts" },
        activeIntentId := some "I1" } "/w"
      = { allow := false,
          error := some (scopeViolationMsg "I1" "src/bar.ts" "src/foo/**"),
          injectedContext := none }) := by
  constructor
  · have h := (claim_C7_scope_or (fun s => s)
      { registryExists := true,
        registry := .ok [{ id := "I1", name := "N", status := "active",
                           owned_scope := some ["src/foo/**"], constraints := none,
                           acceptance_criteria := none }],
        disk := fun _ => none, intentMap := none }
      { toolName := "edit_file", params := { file_path := some "src/foo/bar.ts" },
        activeIntentId := some "I1" } "/w" "src/foo/bar.ts"
      { id := "I1", name := "N", status := "active", owned_scope := some ["src/foo/**"],
        constraints := none, acceptance_criteria := none } ["src/foo/**"]
      rfl (by decide) rfl rfl (by decide) (by decide) rfl (by decide) rfl).1
    rw [h]; decide
  · have h := (claim_C7_scope_or (fun s => s)
      { registryExists := true,
        registry := .ok [{ id := "I1", name := "N", status := "active",
                           owned_scope := some ["src/foo/**"], constraints := none,
                           acceptance_criteria := none }],
        disk := fun _ => none, intentMap := none }
      { toolName := "edit_file", params := { file_path := some "src/bar.ts" },
        activeIntentId := some "I1" } "/w" "src/bar.ts"
      { id := "I1", name := "N", status := "active", owned_scope := some ["src/foo/**"],
        constraints := none, acceptance_criteria := none } ["src/foo/**"]
      rfl (by decide) rfl rfl (by decide) (by decide) rfl (by decide) rfl).2 (by decide)
    exact h.trans (by decide)

/-- Claim C8: with the gate enabled, selecting a non-empty intent id that
does not resolve in the registry is always denied, and the enumerated id
list of the error is exactly the comma-joined ids present in the registry
at that moment (or the explicit could-not-read note when the registry is
unreadable or malformed). -/
theorem claim_C8_select_not_found (hash : String → String) (env : Env)
    (context : PreHookContext) (cwd iid : String)
    (hen : env.registryExists = true)
    (htool : context.toolName = "select_active_intent")
    (hiid : context.params.intent_id = some iid)
    (hne : iid ≠ "")
    (hnf : getActiveIntent env iid = none) :
    runPreHook hash env context cwd =
      { allow := false, error := some (intentNotFoundMsg iid (availableIdsSelect env)),
        injectedContext := none } ∧
    (∀ l, env.registry = .ok l → String.intercalate ", " (l.map Intent.id) ≠ "" →
        availableIdsSelect env = String.intercalate ", " (l.map Intent.id)) ∧
    (env.registry = .readError → availableIdsSelect env = "unknown (could not read file)") ∧
    (env.registry = .badShape → availableIdsSelect env = "unknown (could not read file)") := by
  have hne2 : (iid == "") = false := beq_eq_false_iff_ne.mpr hne
  refine ⟨?_, ?_, ?_, ?_⟩
  · simp [runPreHook, hen, htool, hiid, hne2, hnf]
  · intro l hl hj
    simp [availableIdsSelect, hl, orElseStr, hj]
  · intro hl; simp [availableIdsSelect, hl]
  · intro hl; simp [availableIdsSelect, hl]

theorem claim_C8_witness :
    runPreHook (fun s => s)
      { registryExists := true,
        registry := .ok [{ id := "I1", name := "N", status := "active",
                           owned_scope := none, constraints := none,
                           acceptance_criteria := none },
                         { id := "I2", name := "M", status := "active",
                           owned_scope := none, constraints := none,
                           acceptance_criteria := none }],
        disk := fun _ => none, intentMap := none }
      { toolName := "select_active_intent", params := { intent_id := some "nope" },
        activeIntentId := none } "/w"
      = { allow := false, error := some (intentNotFoundMsg "nope" "I1, I2"),
          injectedContext := none } := by
  have h := (claim_C8_select_not_found (fun s => s)
    { registryExists := true,
      registry := .ok [{ id := "I1", name := "N", status := "active",
                         owned_scope := none, constraints := none,
                         acceptance_criteria := none },
                       { id := "I2", name := "M", status := "active",
                         owned_scope := none, constraints := none,
                         acceptance_criteria := none }],
      disk := fun _ => none, intentMap := none }
    { toolName := "select_active_intent", params := { intent_id := some "nope" },
      activeIntentId := none } "/w" "nope"
    rfl rfl rfl (by decide) (by decide)).1
  exact h.trans (by decide)

/-- Claim C6: the post-hook produces a trace entry if and only if the gate
is enabled, a (truthy) active intent id is bound and a truthy target path
and truthy content are extracted for the tool; and every produced entry
carries exactly one content range, from line 1 to the number of lines of
the extracted content, with digest `sha256:` followed by the hash of that
content. -/
theorem claim_C6_trace_iff (hash : String → String) (env : Env) (amb : Ambient)
    (context : PostHookContext) :
    ((runPostHook hash env amb context).1.isSome = true ↔
      (truthyStr context.activeIntentId = true ∧ env.registryExists = true ∧
        truthyStr (extractPost context.toolName context.params).1 = true ∧
        truthyStr (extractPost context.toolName context.params).2 = true)) ∧
    (∀ e c, (runPostHook hash env amb context).1 = some e →
        (extractPost context.toolName context.params).2 = some c →
        entryRanges e = [[[{ start_line := 1, end_line := (splitOnChar c '\n').length,
                             content_hash := "sha256:" ++ hash c }]]]) := by
  constructor
  · cases hA : truthyStr context.activeIntentId <;>
    cases hE : env.registryExists <;>
    cases hT : truthyStr (extractPost context.toolName context.params).1 <;>
    cases hC : truthyStr (extractPost context.toolName context.params).2 <;>
      simp [runPostHook, hA, hE, hT, hC]
  · intro e c he hc
    cases hA : truthyStr context.activeIntentId <;>
    cases hE : env.registryExists <;>
    cases hT : truthyStr (extractPost context.toolName context.params).1 <;>
    cases hC : truthyStr (extractPost context.toolName context.params).2 <;>
      simp [runPostHook, hA, hE, hT, hC] at he
    subst he
    simp [entryRanges, hc]

theorem claim_C6_witness :
    (runPostHook (fun s => String.mk ('H' :: s.data))
      { registryExists := true,
        registry := .ok [{ id := "I1", name := "N", status := "active",
                           owned_scope := none, constraints := none,
                           acceptance_criteria := none }],
        disk := fun _ => none, intentMap := none }
      { git := .error (), timestamp := "T", mapTimestamp := "T2",
        entryUuid := "U1", sessionUuid := "U2" }
      { toolName := "write_to_file",
        params := { path := some "a.ts", content := some "x\ny" },
        activeIntentId := some "I1" }).1.isSome = true ∧
    entryRanges ((runPostHook (fun s => String.mk ('H' :: s.data))
      { registryExists := true,
        registry := .ok [{ id := "I1", name := "N", status := "active",
                           owned_scope := none, constraints := none,
                           acceptance_criteria := none }],
        disk := fun _ => none, intentMap := none }
      { git := .error (), timestamp := "T", mapTimestamp := "T2",
        entryUuid := "U1", sessionUuid := "U2" }
      { toolName := "write_to_file",
        params := { path := some "a.ts", content := some "x\ny" },
        activeIntentId := some "I1" }).1.getD
        { id := "", timestamp := "", revision_id := "", intent_id := "",
          mutationKind := "", files := [] })
      = [[[{ start_line := 1, end_line := 2, content_hash := "sha256:Hx\ny" }]]] := by
  constructor
  · exact (claim_C6_trace_iff (fun s => String.mk ('H' :: s.data))
      { registryExists := true,
        registry := .ok [{ id := "I1", name := "N", status := "active",
                           owned_scope := none, constraints := none,
                           acceptance_criteria := none }],
        disk := fun _ => none, intentMap := none }
      { git := .error (), timestamp := "T", mapTimestamp := "T2",
        entryUuid := "U1", sessionUuid := "U2" }
      { toolName := "write_to_file",
        params := { path := some "a.ts", content := some "x\ny" },
        activeIntentId := some "I1" }).1.mpr ⟨rfl, rfl, rfl, rfl⟩
  · decide

theorem claim_C10_witness :
    runPreHook (fun s => s)
      { registryExists := true, registry := .readError, disk := fun _ => none, intentMap := none }
      { toolName := "edit_file", params := { file_path := some "x.ts" },
        activeIntentId := some "ghost" } "/w"
      = { allow := true, error := none, injectedContext := none } :=
  claim_C10_unresolvable_intent_allows (fun s => s) _ _ "/w" "x.ts"
    rfl (by decide) rfl rfl (by decide) rfl rfl
